import Mathlib

/-!
Verification development for the geist-pdu-exporter core (`src/main.py`).

The Python program polls a PDU for an XML document and republishes its
fields as Prometheus gauges and one enum.  We shallowly embed:

* XML elements as a tree of tags, attribute association lists and children
  (`Element`), with `find` / attribute access / truthiness as in
  `xml.etree.ElementTree`;
* Python dicts over string keys as association lists with dict-update
  semantics (`Dict`, `dictInsert`, `dictMerge` for `\x7b**a, **b\x7d`);
* the fixed instrument registry built in `Exporter.__init__` as the
  inductive `GaugeId` plus one status enum; the mutable per-label-set
  series as `MetricState`;
* the processing functions `process`, `process_device`, `process_outlet`
  as trace-producing interpreters: each returns the list of instrument
  writes it performs before either finishing or raising, together with
  the Python exception (`PyErr`) that escapes, if any.  The polling loop
  (`start_export_loop`) wraps `process()` in no handler, so a `some e`
  second component means the exception propagates out of the loop.
-/

namespace GeistPdu

/-- An XML element: tag, attribute association list, child elements. -/
inductive Element where
  | mk (tag : String) (attrib : List (String × String)) (children : List Element)

def Element.tag : Element → String
  | .mk t _ _ => t

def Element.attrib : Element → List (String × String)
  | .mk _ a _ => a

def Element.children : Element → List Element
  | .mk _ _ c => c

/-- Python `e.attrib[k]` lookup (as an option; the interpreter turns
`none` into a `KeyError`). -/
def attrOf (e : Element) (k : String) : Option String :=
  (e.attrib.find? (fun p => p.1 == k)).map Prod.snd

/-- `ElementTree.Element.find`: first direct child with the given tag. -/
def findChild (e : Element) (t : String) : Option Element :=
  e.children.find? (fun c => c.tag == t)

/-- Python truthiness of `device.find("outlets")`: `None` is falsy, and an
`Element` is falsy exactly when it has no children. -/
def elemFalsy : Option Element → Bool
  | none => true
  | some e => e.children.isEmpty

/-- A Python `dict[str, str]` as an insertion-ordered association list
with at most one entry per key. -/
abbrev Dict := List (String × String)

def dictGet (d : Dict) (k : String) : Option String :=
  (d.find? (fun p => p.1 == k)).map Prod.snd

/-- `d[k] = v` on a dict: overwrite in place if the key exists, else
append. -/
def dictInsert (d : Dict) (k v : String) : Dict :=
  if d.any (fun p => p.1 == k) then d.map (fun p => if p.1 == k then (k, v) else p)
  else d ++ [(k, v)]

/-- Python `\x7b**a, **b\x7d`: start from `a`, insert every entry of `b`
(so `b`'s value wins on a key collision). -/
def dictMerge (a b : Dict) : Dict :=
  b.foldl (fun d p => dictInsert d p.1 p.2) a

def digitsToNat (cs : List Char) : Nat :=
  cs.foldl (fun n c => n * 10 + (c.toNat - 48)) 0

def allDigits (cs : List Char) : Bool :=
  cs.all Char.isDigit

/-- Python `float(s)` on the plain decimal forms the PDU firmware emits
(optional sign, digits, optional fractional part), as an exact rational.
`none` models the `ValueError` raised on a non-numeric string. -/
def parseFloat (s : String) : Option ℚ :=
  let cs := s.data
  let sb : Int × List Char :=
    match cs with
    | '-' :: r => (-1, r)
    | '+' :: r => (1, r)
    | _ => (1, cs)
  let ip := sb.2.takeWhile (fun c => c != '.')
  match sb.2.dropWhile (fun c => c != '.') with
  | [] =>
    if !ip.isEmpty && allDigits ip then some ((sb.1 : ℚ) * (digitsToNat ip : ℚ)) else none
  | _ :: fp =>
    if (!ip.isEmpty || !fp.isEmpty) && allDigits ip && allDigits fp then
      some ((sb.1 : ℚ) * ((digitsToNat ip : ℚ) + (digitsToNat fp : ℚ) / ((10 : ℚ) ^ fp.length)))
    else none

/-- The thirteen gauges declared once in `Exporter.__init__`: ten
device-level gauges (keyed by the recognized `field` keys) and three
outlet gauges.  The registry never changes shape after startup. -/
inductive GaugeId where
  | kwhTotal
  | kwh
  | realpowerTotal
  | realpower
  | volts
  | voltsPeak
  | amps
  | ampsPeak
  | apparentPower
  | powerFactorPercent
  | outletAmps
  | outletKwhTotal
  | outletWatts
  deriving DecidableEq

/-- The Python exceptions the interpreter can let escape. -/
inductive PyErr where
  | keyErr
  | valueErr
  | typeErr
  | parseErr
  | nameErr
  deriving DecidableEq

/-- One instrument write: a gauge `.labels(...).set(v)` or the outlet
status enum `.labels(...).state(st)`.  Labels are recorded as the value
tuple in the instrument's label-name order, which is how
`prometheus_client` keys its children. -/
inductive Update where
  | setG (g : GaugeId) (lab : List String) (v : ℚ)
  | setS (lab : List String) (st : String)
  deriving DecidableEq

/-- The mutable instrument state: one series list for the gauges (keyed
by gauge identity and label tuple) and one for the status enum. -/
structure MetricState where
  gauge : List (GaugeId × List String × ℚ)
  status : List (List String × String)
  deriving DecidableEq

/-- Registry state right after `Exporter.__init__`: no series exist yet. -/
def initState : MetricState := ⟨[], []⟩

def setSeries : List (GaugeId × List String × ℚ) → GaugeId → List String → ℚ →
    List (GaugeId × List String × ℚ)
  | [], g, lab, v => [(g, lab, v)]
  | e :: rest, g, lab, v =>
    if e.1 = g ∧ e.2.1 = lab then (g, lab, v) :: rest
    else e :: setSeries rest g lab v

def getSeries : List (GaugeId × List String × ℚ) → GaugeId → List String → Option ℚ
  | [], _, _ => none
  | e :: rest, g, lab => if e.1 = g ∧ e.2.1 = lab then some e.2.2 else getSeries rest g lab

def setStatusSeries : List (List String × String) → List String → String →
    List (List String × String)
  | [], lab, st => [(lab, st)]
  | e :: rest, lab, st => if e.1 = lab then (lab, st) :: rest else e :: setStatusSeries rest lab st

def getStatusSeries : List (List String × String) → List String → Option String
  | [], _ => none
  | e :: rest, lab => if e.1 = lab then some e.2 else getStatusSeries rest lab

/-- Current value of a gauge at a label tuple (`none`: series absent). -/
def getGauge (s : MetricState) (g : GaugeId) (lab : List String) : Option ℚ :=
  getSeries s.gauge g lab

/-- Current state of `pdu_outlet_status` at a label tuple. -/
def getStatus (s : MetricState) (lab : List String) : Option String :=
  getStatusSeries s.status lab

def applyUpdate (s : MetricState) : Update → MetricState
  | .setG g lab v => { s with gauge := setSeries s.gauge g lab v }
  | .setS lab st => { s with status := setStatusSeries s.status lab st }

def applyUpdates (s : MetricState) (us : List Update) : MetricState :=
  us.foldl applyUpdate s

/-- The outcome of running a piece of the Python code: the instrument
writes performed, and the exception that escaped, if any. -/
abbrev Run := List Update × Option PyErr

/-- Sequencing: if the first piece raised, the second never runs. -/
def seqRun (a : Run) (b : Run) : Run :=
  match a.2 with
  | some _ => a
  | none => (a.1 ++ b.1, b.2)

/-- A Python `for` loop whose body may raise: stop at the first error. -/
def runList {α : Type} (f : α → Run) : List α → Run
  | [] => ([], none)
  | x :: xs => seqRun (f x) (runList f xs)

def deviceLabelNames : List String := ["id", "type"]

def outletLabelNames : List String := ["name", "num", "url"]

/-- The `states` list of the `pdu_outlet_status` enum. -/
def outletStates : List String := ["On", "Off"]

/-- The `self.device_metrics` lookup table: recognized `field` keys to
their gauge, `.get` returning `none` on anything else. -/
def deviceMetricKey (k : String) : Option GaugeId :=
  if k = "KWatt-hrs-Total" then some .kwhTotal
  else if k = "KWatt-hrs-A" then some .kwh
  else if k = "RealPower-Total" then some .realpowerTotal
  else if k = "RealPower-A" then some .realpower
  else if k = "Volts-A" then some .volts
  else if k = "Volt-Pk-A" then some .voltsPeak
  else if k = "Amps-A" then some .amps
  else if k = "Amps-Pk-A" then some .ampsPeak
  else if k = "ApPower-A" then some .apparentPower
  else if k = "Pwr-Factor%-A" then some .powerFactorPercent
  else none

/-- The ten recognized device field keys, in declaration order. -/
def recognizedDeviceKeys : List String :=
  ["KWatt-hrs-Total", "KWatt-hrs-A", "RealPower-Total", "RealPower-A", "Volts-A",
   "Volt-Pk-A", "Amps-A", "Amps-Pk-A", "ApPower-A", "Pwr-Factor%-A"]

/-- `self.outlet_metrics.items()` in insertion order. -/
def outletMetricAttrs : List (String × GaugeId) :=
  [("amps", .outletAmps), ("kwatthrs", .outletKwhTotal), ("watts", .outletWatts)]

/-- The dict comprehension `\x7blabel: e.attrib[label] for label in names\x7d`;
`none` models the `KeyError` on the first missing attribute. -/
def buildDict (names : List String) (e : Element) : Option Dict :=
  names.foldl (fun acc nm =>
    match acc with
    | none => none
    | some d =>
      match attrOf e nm with
      | none => none
      | some v => some (d ++ [(nm, v)])) (some [])

/-- `metric.labels(**d)`: the child key is the tuple of label values in
the instrument's label-name order. -/
def canonLabels (names : List String) (d : Dict) : Option (List String) :=
  names.mapM (fun nm => dictGet d nm)

/-- One iteration of the `for child in device` loop in `process_device`:
skip non-`field` tags, look the `key` up in `device_metrics`, and set the
gauge at the device label tuple when the key is recognized. -/
def processField (dlab : Dict) (child : Element) : Run :=
  if child.tag ≠ "field" then ([], none)
  else
    match attrOf child "key" with
    | none => ([], some .keyErr)
    | some k =>
      match deviceMetricKey k with
      | none => ([], none)
      | some gid =>
        match canonLabels deviceLabelNames dlab with
        | none => ([], some .valueErr)
        | some lab =>
          match attrOf child "value" with
          | none => ([], some .keyErr)
          | some vs =>
            match parseFloat vs with
            | none => ([], some .valueErr)
            | some v => ([Update.setG gid lab v], none)

/-- `Exporter.process_outlet`: read `num` for the log line, build the
outlet label dict, merge it with the device labels via `\x7b**o, **d\x7d`,
set the three outlet gauges, then set the status enum — whose `.state`
raises `ValueError` without writing when the value is not in `states`. -/
def processOutlet (outlet : Element) (dlab : Dict) : Run :=
  match attrOf outlet "num" with
  | none => ([], some .keyErr)
  | some _ =>
    match buildDict outletLabelNames outlet with
    | none => ([], some .keyErr)
    | some olab =>
      match canonLabels (outletLabelNames ++ deviceLabelNames) (dictMerge olab dlab) with
      | none => ([], some .valueErr)
      | some lab =>
        let mres := outletMetricAttrs.foldl (fun acc p =>
          match acc.2 with
          | some _ => acc
          | none =>
            match attrOf outlet p.1 with
            | none => (acc.1, some PyErr.keyErr)
            | some vs =>
              match parseFloat vs with
              | none => (acc.1, some PyErr.valueErr)
              | some v => (acc.1 ++ [Update.setG p.2 lab v], none)) (([], none) : Run)
        match mres.2 with
        | some _ => mres
        | none =>
          match attrOf outlet "status" with
          | none => (mres.1, some .keyErr)
          | some st =>
            if outletStates.contains st then (mres.1 ++ [Update.setS lab st], none)
            else (mres.1, some .valueErr)

/-- `Exporter.process_device`: the log line reads `attrib["type"]` first;
then `outlets = device.find("outlets")` and the `if not outlets: return`
early exit; then the device label dict, the field loop over all children,
and the outlet loop. -/
def processDevice (device : Element) : Run :=
  match attrOf device "type" with
  | none => ([], some .keyErr)
  | some _ =>
    let outlets := findChild device "outlets"
    if elemFalsy outlets then ([], none)
    else
      match buildDict deviceLabelNames device with
      | none => ([], some .keyErr)
      | some dlab =>
        seqRun (runList (processField dlab) device.children)
          (match outlets with
           | some o => runList (fun x => processOutlet x dlab) o.children
           | none => ([], none))

/-- `Exporter.process` after a successful fetch: find the `devices`
container (iterating `None` raises `TypeError`) and process each child. -/
def processRoot (root : Element) : Run :=
  match findChild root "devices" with
  | none => ([], some .typeErr)
  | some devices => runList processDevice devices.children

/-- The metric state after one `process()` call on a parsed document:
the writes performed before any exception are applied. -/
def processDoc (s : MetricState) (root : Element) : MetricState :=
  applyUpdates s (processRoot root).1

/-- What the network and the response body did this cycle, the input to
`Exporter.fetch`. -/
inductive FetchOutcome where
  | success (doc : Element)
  | malformed
  | connectionFailure

inductive FetchRes where
  | doc (root : Element)
  | err (e : PyErr)

/-- `Exporter.fetch`: on `requests.ConnectionError` the handler logs a
warning (the `Bool`) and falls through, so `ET.fromstring(resp.text)`
reads the unbound `resp` and raises `UnboundLocalError` (a `NameError`);
on a malformed body `ET.fromstring` raises `ParseError`, uncaught and
unlogged; on success the parsed root is returned. -/
def fetchRun : FetchOutcome → Bool × FetchRes
  | .success d => (false, .doc d)
  | .malformed => (false, .err .parseErr)
  | .connectionFailure => (true, .err .nameErr)

/-- One full cycle of the polling loop: the state after, the exception
escaping `process()` (and hence the loop, which has no handler), and
whether a warning was logged. -/
def processCycle (s : MetricState) (o : FetchOutcome) : MetricState × Option PyErr × Bool :=
  match fetchRun o with
  | (w, .err e) => (s, some e, w)
  | (w, .doc root) => (processDoc s root, (processRoot root).2, w)

/-- An XML `field` element with a `key` and a `value` attribute. -/
def fieldElem (k v : String) : Element := .mk "field" [("key", k), ("value", v)] []

/-- A fully populated XML `outlet` element. -/
def outletElem (n nu u amp kw w st : String) : Element :=
  .mk "outlet"
    [("name", n), ("num", nu), ("url", u), ("amps", amp), ("kwatthrs", kw),
     ("watts", w), ("status", st)] []

/-- An XML `outlet` element whose `watts` attribute is missing. -/
def outletNoWatts (n nu u amp kw st : String) : Element :=
  .mk "outlet"
    [("name", n), ("num", nu), ("url", u), ("amps", amp), ("kwatthrs", kw),
     ("status", st)] []

/-- An XML `outlet` element whose `amps` attribute is missing. -/
def outletNoAmps (n nu u kw w st : String) : Element :=
  .mk "outlet"
    [("name", n), ("num", nu), ("url", u), ("kwatthrs", kw), ("watts", w),
     ("status", st)] []

/-- An XML `outlet` element whose `kwatthrs` attribute is missing. -/
def outletNoKwatthrs (n nu u amp w st : String) : Element :=
  .mk "outlet"
    [("name", n), ("num", nu), ("url", u), ("amps", amp), ("watts", w),
     ("status", st)] []

/-- An XML `device` element with `id` and `type` attributes. -/
def deviceElem (i t : String) (children : List Element) : Element :=
  .mk "device" [("id", i), ("type", t)] children

/-- A document root wrapping a `devices` container. -/
def rootDoc (devices : List Element) : Element :=
  .mk "root" [] [.mk "devices" [] devices]

/-- A device carrying a recognized `RealPower-A` field but no `outlets`
container at all. -/
def docNoOutlets : Element :=
  rootDoc [deviceElem "1" "pdu" [fieldElem "RealPower-A" "123.4"]]

/-- A device carrying a recognized `RealPower-A` field and a present but
empty `outlets` container. -/
def docEmptyOutlets : Element :=
  rootDoc [deviceElem "1" "pdu"
    [fieldElem "RealPower-A" "123.4", Element.mk "outlets" [] []]]

/-- A device carrying a recognized `RealPower-A` field and one well-formed
outlet. -/
def docWithOutlet : Element :=
  rootDoc [deviceElem "1" "pdu"
    [fieldElem "RealPower-A" "123.4",
     Element.mk "outlets" [] [outletElem "o1" "1" "u1" "1.5" "2.5" "100" "On"]]]

/-- A device whose first outlet is missing its `watts` attribute and whose
second outlet is well-formed. -/
def docMissingWatts : Element :=
  rootDoc [deviceElem "1" "pdu"
    [Element.mk "outlets" []
      [outletNoWatts "o1" "1" "u1" "1.5" "2.5" "On",
       outletElem "o2" "2" "u2" "3.5" "4.5" "5.5" "Off"]]]

/-- A device whose first outlet is missing its `amps` attribute and whose
second outlet is well-formed. -/
def docMissingAmps : Element :=
  rootDoc [deviceElem "1" "pdu"
    [Element.mk "outlets" []
      [outletNoAmps "o1" "1" "u1" "2.5" "5.5" "On",
       outletElem "o2" "2" "u2" "3.5" "4.5" "5.5" "Off"]]]

/-- A device whose first outlet is missing its `kwatthrs` attribute and
whose second outlet is well-formed. -/
def docMissingKwatthrs : Element :=
  rootDoc [deviceElem "1" "pdu"
    [Element.mk "outlets" []
      [outletNoKwatthrs "o1" "1" "u1" "1.5" "5.5" "On",
       outletElem "o2" "2" "u2" "3.5" "4.5" "5.5" "Off"]]]

/-- First-some choice on options, used to phrase last-write-wins. -/
def orElseOpt {α : Type} (a b : Option α) : Option α :=
  match a with
  | some v => some v
  | none => b

/-- The last value a trace writes to a gauge series, if any. -/
def lastG : List Update → GaugeId → List String → Option ℚ
  | [], _, _ => none
  | Update.setG g' lab' v :: rest, g, lab =>
    orElseOpt (lastG rest g lab) (if g' = g ∧ lab' = lab then some v else none)
  | Update.setS _ _ :: rest, g, lab => lastG rest g lab

/-- The last state a trace writes to a status series, if any. -/
def lastS : List Update → List String → Option String
  | [], _ => none
  | Update.setS lab' st :: rest, lab =>
    orElseOpt (lastS rest lab) (if lab' = lab then some st else none)
  | Update.setG _ _ _ :: rest, lab => lastS rest lab

theorem getSeries_setSeries (l : List (GaugeId × List String × ℚ)) (g g' : GaugeId)
    (lab lab' : List String) (v : ℚ) :
    getSeries (setSeries l g lab v) g' lab' =
      if g = g' ∧ lab = lab' then some v else getSeries l g' lab' := by
  induction l with
  | nil => by_cases h : g = g' ∧ lab = lab' <;> simp [setSeries, getSeries, h]
  | cons e rest ih =>
    obtain ⟨e1, e2, e3⟩ := e
    by_cases he1 : e1 = g <;> by_cases he2 : e2 = lab <;>
      by_cases h1 : g = g' <;> by_cases h2 : lab = lab' <;>
      simp_all [setSeries, getSeries]

theorem getStatusSeries_setStatusSeries (l : List (List String × String))
    (lab lab' : List String) (st : String) :
    getStatusSeries (setStatusSeries l lab st) lab' =
      if lab = lab' then some st else getStatusSeries l lab' := by
  induction l with
  | nil => by_cases h : lab = lab' <;> simp [setStatusSeries, getStatusSeries, h]
  | cons e rest ih =>
    obtain ⟨e1, e2⟩ := e
    by_cases he : e1 = lab <;> by_cases h : lab = lab' <;>
      simp_all [setStatusSeries, getStatusSeries]

/-- A gauge value after applying a trace is the trace's last write to it,
or else the previous value. -/
theorem getGauge_applyUpdates (s : MetricState) (us : List Update) (g : GaugeId)
    (lab : List String) :
    getGauge (applyUpdates s us) g lab = orElseOpt (lastG us g lab) (getGauge s g lab) := by
  induction us generalizing s with
  | nil => simp [applyUpdates, lastG, orElseOpt]
  | cons u rest ih =>
    have hfold : applyUpdates s (u :: rest) = applyUpdates (applyUpdate s u) rest := rfl
    cases u with
    | setG g' lab' v =>
      rw [hfold, ih]
      have hstep : getGauge (applyUpdate s (Update.setG g' lab' v)) g lab =
          if g' = g ∧ lab' = lab then some v else getGauge s g lab := by
        simp [applyUpdate, getGauge, getSeries_setSeries]
      rw [hstep]
      cases hl : lastG rest g lab <;>
        by_cases hc : g' = g ∧ lab' = lab <;>
        simp [lastG, orElseOpt, hl, hc]
    | setS lab' st =>
      rw [hfold, ih]
      have hstep : getGauge (applyUpdate s (Update.setS lab' st)) g lab = getGauge s g lab := by
        simp [applyUpdate, getGauge]
      rw [hstep]
      simp [lastG]

/-- A status value after applying a trace is the trace's last write to it,
or else the previous value. -/
theorem getStatus_applyUpdates (s : MetricState) (us : List Update) (lab : List String) :
    getStatus (applyUpdates s us) lab = orElseOpt (lastS us lab) (getStatus s lab) := by
  induction us generalizing s with
  | nil => simp [applyUpdates, lastS, orElseOpt]
  | cons u rest ih =>
    have hfold : applyUpdates s (u :: rest) = applyUpdates (applyUpdate s u) rest := rfl
    cases u with
    | setG g' lab' v =>
      rw [hfold, ih]
      have hstep : getStatus (applyUpdate s (Update.setG g' lab' v)) lab = getStatus s lab := by
        simp [applyUpdate, getStatus]
      rw [hstep]
      simp [lastS]
    | setS lab' st =>
      rw [hfold, ih]
      have hstep : getStatus (applyUpdate s (Update.setS lab' st)) lab =
          if lab' = lab then some st else getStatus s lab := by
        simp [applyUpdate, getStatus, getStatusSeries_setStatusSeries]
      rw [hstep]
      cases hl : lastS rest lab <;>
        by_cases hc : lab' = lab <;>
        simp [lastS, orElseOpt, hl, hc]

/-- Full evaluation of `process_outlet` on a fully populated outlet:
three gauge writes at the merged label tuple, then either the status
write or a `ValueError` with no status write. -/
theorem processOutlet_eval (n nu u amp kw w st i t : String) (av kv wv : ℚ)
    (ha : parseFloat amp = some av) (hk : parseFloat kw = some kv)
    (hw : parseFloat w = some wv) :
    processOutlet (outletElem n nu u amp kw w st) [("id", i), ("type", t)] =
      (if outletStates.contains st then
        ([Update.setG .outletAmps [n, nu, u, i, t] av,
          Update.setG .outletKwhTotal [n, nu, u, i, t] kv,
          Update.setG .outletWatts [n, nu, u, i, t] wv,
          Update.setS [n, nu, u, i, t] st], none)
       else
        ([Update.setG .outletAmps [n, nu, u, i, t] av,
          Update.setG .outletKwhTotal [n, nu, u, i, t] kv,
          Update.setG .outletWatts [n, nu, u, i, t] wv], some PyErr.valueErr)) := by
  simp [processOutlet, outletElem, attrOf, buildDict, outletLabelNames, deviceLabelNames,
        dictMerge, dictInsert, dictGet, canonLabels, outletMetricAttrs,
        Element.attrib, List.find?, List.mapM.loop, ha, hk, hw]

theorem pf_1234 : parseFloat "123.4" = some (617 / 5) := by
  have h : parseFloat "123.4" =
      some (((1 : Int) : ℚ) * ((digitsToNat ['1', '2', '3'] : ℚ) +
        (digitsToNat ['4'] : ℚ) / ((10 : ℚ) ^ (['4'] : List Char).length))) := rfl
  have h1 : digitsToNat ['1', '2', '3'] = 123 := by decide
  have h2 : digitsToNat ['4'] = 4 := by decide
  rw [h, h1, h2]
  norm_num

theorem pf_15 : parseFloat "1.5" = some (3 / 2) := by
  have h : parseFloat "1.5" =
      some (((1 : Int) : ℚ) * ((digitsToNat ['1'] : ℚ) +
        (digitsToNat ['5'] : ℚ) / ((10 : ℚ) ^ (['5'] : List Char).length))) := rfl
  have h1 : digitsToNat ['1'] = 1 := by decide
  have h2 : digitsToNat ['5'] = 5 := by decide
  rw [h, h1, h2]
  norm_num

theorem pf_25 : parseFloat "2.5" = some (5 / 2) := by
  have h : parseFloat "2.5" =
      some (((1 : Int) : ℚ) * ((digitsToNat ['2'] : ℚ) +
        (digitsToNat ['5'] : ℚ) / ((10 : ℚ) ^ (['5'] : List Char).length))) := rfl
  have h1 : digitsToNat ['2'] = 2 := by decide
  have h2 : digitsToNat ['5'] = 5 := by decide
  rw [h, h1, h2]
  norm_num

theorem pf_55 : parseFloat "5.5" = some (11 / 2) := by
  have h : parseFloat "5.5" =
      some (((1 : Int) : ℚ) * ((digitsToNat ['5'] : ℚ) +
        (digitsToNat ['5'] : ℚ) / ((10 : ℚ) ^ (['5'] : List Char).length))) := rfl
  have h1 : digitsToNat ['5'] = 5 := by decide
  rw [h, h1]
  norm_num

/-- Claim C1: on a connection-level fetch failure the code does log a
warning and leaves every instrument value unchanged, but `process()` does
not complete: the `except` handler falls through to
`ET.fromstring(resp.text)` with `resp` unbound, so an `UnboundLocalError`
(modelled as `PyErr.nameErr`) escapes `fetch`, `process` and the polling
loop.  The theorem evaluates the cycle at the failing input: state
unchanged, warning logged, exception escaping. -/
theorem c1_connection_failure_crashes_loop (s : MetricState) :
    processCycle s FetchOutcome.connectionFailure = (s, some PyErr.nameErr, true) := rfl

/-- Claim C2 counterexample: a well-formed document whose device has a
recognized `RealPower-A` field but no `outlets` container.  The claim
says the device-level gauge is still set; the code's early
`if not outlets: return` runs before the field loop, so `pdu_realpower`
at the device label-set stays unset. -/
theorem c2_counterexample :
    getGauge (processDoc initState docNoOutlets) GaugeId.realpower ["1", "pdu"] = none := by
  decide

/-- Claim C2, amended: for every device whose `outlets` container is
absent, the entire device is skipped — no device-level gauges are set,
no outlet metrics are touched, and no error is raised at the cycle
level. -/
theorem c2_amended_device_skipped_without_outlets (device : Element) (ty : String)
    (h1 : attrOf device "type" = some ty)
    (h2 : findChild device "outlets" = none) :
    processDevice device = ([], none) := by
  simp [processDevice, h1, h2, elemFalsy]

/-- Claim C2 amended, witness at a concrete device. -/
theorem c2_amended_witness :
    processDevice (deviceElem "1" "pdu" [fieldElem "RealPower-A" "123.4"]) = ([], none) :=
  c2_amended_device_skipped_without_outlets
    (deviceElem "1" "pdu" [fieldElem "RealPower-A" "123.4"]) "pdu" rfl rfl

/-- Claim C3 counterexample: on a malformed body the cycle does not
complete without an exception escaping (the error component is not
`none`), and no warning is logged by the program on this path. -/
theorem c3_counterexample :
    (processCycle initState FetchOutcome.malformed).2.1 ≠ none ∧
    (processCycle initState FetchOutcome.malformed).2.2 = false := by
  decide

/-- Claim C3, amended: a fetched body that is not well-formed XML makes
`ET.fromstring` raise a `ParseError` that nothing catches, so it
propagates out of `process()` and the polling loop; no warning is logged
by the program, and every instrument's prior value is unchanged at the
point the exception escapes. -/
theorem c3_amended_malformed_xml_escapes (s : MetricState) :
    processCycle s FetchOutcome.malformed = (s, some PyErr.parseErr, false) := rfl

/-- Claim C4 counterexample: three documents, one per missing numeric
attribute (`amps`, `kwatthrs`, `watts`), each with a well-formed second
outlet.  In every case the cycle aborts with a `KeyError` and the second
outlet is never processed — its `pdu_outlet_amps` series stays unset —
contradicting skip-and-continue. -/
theorem c4_counterexample :
    ((processRoot docMissingAmps).2 = some PyErr.keyErr ∧
      getGauge (processDoc initState docMissingAmps) GaugeId.outletAmps
        ["o2", "2", "u2", "1", "pdu"] = none) ∧
    ((processRoot docMissingKwatthrs).2 = some PyErr.keyErr ∧
      getGauge (processDoc initState docMissingKwatthrs) GaugeId.outletAmps
        ["o2", "2", "u2", "1", "pdu"] = none) ∧
    ((processRoot docMissingWatts).2 = some PyErr.keyErr ∧
      getGauge (processDoc initState docMissingWatts) GaugeId.outletAmps
        ["o2", "2", "u2", "1", "pdu"] = none) := by
  decide

/-- Claim C4, amended: for every outlet element missing any one of the
three numeric attributes `amps`, `kwatthrs`, `watts` (the attributes the
loop reads before the missing one parsing successfully, so the `KeyError`
at the missing attribute is what fires), `outlet.attrib[attr]` raises a
`KeyError` that aborts the entire cycle rather than skipping the single
outlet: the writes made before the failure remain, and the remaining
outlets of the loop are not processed. -/
theorem c4_amended_missing_attr_aborts_cycle (o : Element) (n nu u i t : String)
    (hname : attrOf o "name" = some n) (hnum : attrOf o "num" = some nu)
    (hurl : attrOf o "url" = some u)
    (hmiss : attrOf o "amps" = none ∨
      (attrOf o "kwatthrs" = none ∧ ∃ av, (attrOf o "amps").bind parseFloat = some av) ∨
      (attrOf o "watts" = none ∧ ∃ av kv,
        (attrOf o "amps").bind parseFloat = some av ∧
        (attrOf o "kwatthrs").bind parseFloat = some kv)) :
    ∃ us, processOutlet o [("id", i), ("type", t)] = (us, some PyErr.keyErr) ∧
      ∀ rest, runList (fun x => processOutlet x [("id", i), ("type", t)]) (o :: rest) =
        (us, some PyErr.keyErr) := by
  have hbd : buildDict outletLabelNames o = some [("name", n), ("num", nu), ("url", u)] := by
    simp [buildDict, outletLabelNames, hname, hnum, hurl]
  have hmerge : dictMerge [("name", n), ("num", nu), ("url", u)] [("id", i), ("type", t)] =
      [("name", n), ("num", nu), ("url", u), ("id", i), ("type", t)] := rfl
  have hcanon : canonLabels (outletLabelNames ++ deviceLabelNames)
      [("name", n), ("num", nu), ("url", u), ("id", i), ("type", t)] =
      some [n, nu, u, i, t] := rfl
  rcases hmiss with hamps | ⟨hkw, av, hav⟩ | ⟨hw, av, kv, hav, hkv⟩
  · refine ⟨[], ?_, ?_⟩
    · simp [processOutlet, hnum, hbd, hmerge, hcanon, outletMetricAttrs, hamps]
    · intro rest
      have h : processOutlet o [("id", i), ("type", t)] = ([], some PyErr.keyErr) := by
        simp [processOutlet, hnum, hbd, hmerge, hcanon, outletMetricAttrs, hamps]
      simp [runList, seqRun, h]
  · obtain ⟨amp, has, hpf⟩ : ∃ amp, attrOf o "amps" = some amp ∧ parseFloat amp = some av := by
      cases h : attrOf o "amps" with
      | none => rw [h] at hav; simp at hav
      | some amp => rw [h] at hav; exact ⟨amp, rfl, hav⟩
    refine ⟨[Update.setG .outletAmps [n, nu, u, i, t] av], ?_, ?_⟩
    · simp [processOutlet, hnum, hbd, hmerge, hcanon, outletMetricAttrs, has, hpf, hkw]
    · intro rest
      have h : processOutlet o [("id", i), ("type", t)] =
          ([Update.setG .outletAmps [n, nu, u, i, t] av], some PyErr.keyErr) := by
        simp [processOutlet, hnum, hbd, hmerge, hcanon, outletMetricAttrs, has, hpf, hkw]
      simp [runList, seqRun, h]
  · obtain ⟨amp, has, hpf⟩ : ∃ amp, attrOf o "amps" = some amp ∧ parseFloat amp = some av := by
      cases h : attrOf o "amps" with
      | none => rw [h] at hav; simp at hav
      | some amp => rw [h] at hav; exact ⟨amp, rfl, hav⟩
    obtain ⟨kw, hks, hkpf⟩ : ∃ kw, attrOf o "kwatthrs" = some kw ∧ parseFloat kw = some kv := by
      cases h : attrOf o "kwatthrs" with
      | none => rw [h] at hkv; simp at hkv
      | some kw => rw [h] at hkv; exact ⟨kw, rfl, hkv⟩
    refine ⟨[Update.setG .outletAmps [n, nu, u, i, t] av,
             Update.setG .outletKwhTotal [n, nu, u, i, t] kv], ?_, ?_⟩
    · simp [processOutlet, hnum, hbd, hmerge, hcanon, outletMetricAttrs, has, hpf, hks, hkpf, hw]
    · intro rest
      have h : processOutlet o [("id", i), ("type", t)] =
          ([Update.setG .outletAmps [n, nu, u, i, t] av,
            Update.setG .outletKwhTotal [n, nu, u, i, t] kv], some PyErr.keyErr) := by
        simp [processOutlet, hnum, hbd, hmerge, hcanon, outletMetricAttrs, has, hpf, hks, hkpf, hw]
      simp [runList, seqRun, h]

/-- Claim C4 amended, witness: three concrete outlets, each missing one
of the three numeric attributes, each aborting the outlet loop with a
`KeyError`. -/
theorem c4_amended_witness :
    (attrOf (outletNoAmps "o1" "1" "u1" "2.5" "5.5" "On") "amps" = none ∧
     ∃ us, processOutlet (outletNoAmps "o1" "1" "u1" "2.5" "5.5" "On")
        [("id", "1"), ("type", "pdu")] = (us, some PyErr.keyErr) ∧
      ∀ rest, runList (fun x => processOutlet x [("id", "1"), ("type", "pdu")])
        (outletNoAmps "o1" "1" "u1" "2.5" "5.5" "On" :: rest) = (us, some PyErr.keyErr)) ∧
    (attrOf (outletNoKwatthrs "o1" "1" "u1" "1.5" "5.5" "On") "kwatthrs" = none ∧
     ∃ us, processOutlet (outletNoKwatthrs "o1" "1" "u1" "1.5" "5.5" "On")
        [("id", "1"), ("type", "pdu")] = (us, some PyErr.keyErr) ∧
      ∀ rest, runList (fun x => processOutlet x [("id", "1"), ("type", "pdu")])
        (outletNoKwatthrs "o1" "1" "u1" "1.5" "5.5" "On" :: rest) = (us, some PyErr.keyErr)) ∧
    (attrOf (outletNoWatts "o1" "1" "u1" "1.5" "2.5" "On") "watts" = none ∧
     ∃ us, processOutlet (outletNoWatts "o1" "1" "u1" "1.5" "2.5" "On")
        [("id", "1"), ("type", "pdu")] = (us, some PyErr.keyErr) ∧
      ∀ rest, runList (fun x => processOutlet x [("id", "1"), ("type", "pdu")])
        (outletNoWatts "o1" "1" "u1" "1.5" "2.5" "On" :: rest) = (us, some PyErr.keyErr)) :=
  ⟨⟨by decide,
    c4_amended_missing_attr_aborts_cycle (outletNoAmps "o1" "1" "u1" "2.5" "5.5" "On")
      "o1" "1" "u1" "1" "pdu" rfl rfl rfl (Or.inl rfl)⟩,
   ⟨by decide,
    c4_amended_missing_attr_aborts_cycle (outletNoKwatthrs "o1" "1" "u1" "1.5" "5.5" "On")
      "o1" "1" "u1" "1" "pdu" rfl rfl rfl (Or.inr (Or.inl ⟨rfl, ⟨3 / 2, pf_15⟩⟩))⟩,
   ⟨by decide,
    c4_amended_missing_attr_aborts_cycle (outletNoWatts "o1" "1" "u1" "1.5" "2.5" "On")
      "o1" "1" "u1" "1" "pdu" rfl rfl rfl
      (Or.inr (Or.inr ⟨rfl, ⟨3 / 2, 5 / 2, pf_15, pf_25⟩⟩))⟩⟩

/-- Claim C6 counterexample: a document literally matching the claim's
description — device `id="1"`, `type="pdu"`, a `field` with key
`RealPower-A` and value `123.4` — whose `outlets` container is empty.
The early-return in `process_device` skips the whole device, so
`pdu_realpower` at that label-set is not `123.4` but unset. -/
theorem c6_counterexample :
    getGauge (processDoc initState docEmptyOutlets) GaugeId.realpower ["1", "pdu"] = none := by
  decide

/-- Claim C6, amended: for the crafted document whose device additionally
carries a non-empty `outlets` container, processing does set
`pdu_realpower` at label-set (id=1, type=pdu) to 123.4 (the exact
rational 617/5). -/
theorem c6_amended_roundtrip_realpower :
    getGauge (processDoc initState docWithOutlet) GaugeId.realpower ["1", "pdu"] =
      some (617 / 5) := by
  have h : getGauge (processDoc initState docWithOutlet) GaugeId.realpower ["1", "pdu"] =
      parseFloat "123.4" := rfl
  rw [h, pf_1234]

/-- Claim C7: processing the same parsed document twice in succession
yields instrument state identical to processing it once — for every
gauge, every status series and every label tuple, the value after the
second `process()` equals the value after the first.  This holds for
every document and every starting state, including cycles that abort
with an exception partway through. -/
theorem c7_process_idempotent (s : MetricState) (root : Element) (g : GaugeId)
    (lab slab : List String) :
    getGauge (processDoc (processDoc s root) root) g lab =
      getGauge (processDoc s root) g lab ∧
    getStatus (processDoc (processDoc s root) root) slab =
      getStatus (processDoc s root) slab := by
  constructor
  · unfold processDoc
    rw [getGauge_applyUpdates, getGauge_applyUpdates]
    cases lastG (processRoot root).1 g lab <;> simp [orElseOpt]
  · unfold processDoc
    rw [getStatus_applyUpdates, getStatus_applyUpdates]
    cases lastS (processRoot root).1 slab <;> simp [orElseOpt]

/-- Claim C8: for every processed outlet, the merged label-set used by
all three outlet gauges and the status enum is the union of the outlet's
(name, num, url) values and the parent device's (id, type) values — the
tuple (name, num, url, id, type).  The two key sets are disjoint by
construction, so the precedence clause is never exercised. -/
theorem c8_outlet_label_merge (n nu u amp kw w st i t : String) (av kv wv : ℚ)
    (ha : parseFloat amp = some av) (hk : parseFloat kw = some kv)
    (hw : parseFloat w = some wv) (hst : st ∈ outletStates) :
    processOutlet (outletElem n nu u amp kw w st) [("id", i), ("type", t)] =
      ([Update.setG .outletAmps [n, nu, u, i, t] av,
        Update.setG .outletKwhTotal [n, nu, u, i, t] kv,
        Update.setG .outletWatts [n, nu, u, i, t] wv,
        Update.setS [n, nu, u, i, t] st], none) := by
  rw [processOutlet_eval n nu u amp kw w st i t av kv wv ha hk hw]
  rw [if_pos (by simpa using hst)]

/-- Claim C8, witness at a concrete outlet and device. -/
theorem c8_witness :
    ("On" : String) ∈ outletStates ∧
    processOutlet (outletElem "o1" "3" "u1" "1.5" "2.5" "5.5" "On")
      [("id", "1"), ("type", "pdu")] =
      ([Update.setG .outletAmps ["o1", "3", "u1", "1", "pdu"] (3 / 2),
        Update.setG .outletKwhTotal ["o1", "3", "u1", "1", "pdu"] (5 / 2),
        Update.setG .outletWatts ["o1", "3", "u1", "1", "pdu"] (11 / 2),
        Update.setS ["o1", "3", "u1", "1", "pdu"] "On"], none) :=
  ⟨by decide,
   c8_outlet_label_merge "o1" "3" "u1" "1.5" "2.5" "5.5" "On" "1" "pdu"
     (3 / 2) (5 / 2) (11 / 2) pf_15 pf_25 pf_55 (by decide)⟩

/-- Claim C9: a `field` whose key is not among the ten recognized device
metric keys is ignored without error and without touching or creating any
instrument: `device_metrics.get` returns nothing for it and the field
loop iteration performs no write and raises nothing, so the instrument
registry keeps exactly the shape declared at startup. -/
theorem c9_unrecognized_key_ignored (k : String) (dlab : Dict) (child : Element)
    (hk : k ∉ recognizedDeviceKeys)
    (ht : child.tag = "field")
    (ha : attrOf child "key" = some k) :
    deviceMetricKey k = none ∧ processField dlab child = ([], none) := by
  have hnone : deviceMetricKey k = none := by
    simp only [recognizedDeviceKeys, List.mem_cons, List.mem_singleton, not_or] at hk
    obtain ⟨h1, h2, h3, h4, h5, h6, h7, h8, h9, h10⟩ := hk
    simp [deviceMetricKey, h1, h2, h3, h4, h5, h6, h7, h8, h9, h10]
  exact ⟨hnone, by simp [processField, ht, ha, hnone]⟩

/-- Claim C9, witness at the spec's example key `Foo-Bar`. -/
theorem c9_witness :
    deviceMetricKey "Foo-Bar" = none ∧
    processField [("id", "1"), ("type", "pdu")] (fieldElem "Foo-Bar" "17") = ([], none) :=
  c9_unrecognized_key_ignored "Foo-Bar" [("id", "1"), ("type", "pdu")]
    (fieldElem "Foo-Bar" "17") (by decide) rfl rfl

/-- Claim C10: a device whose `outlets` container is present but has zero
outlet children is skipped entirely — `if not outlets` is true for a
childless element just as for `None` — so no device-level field gauge is
set for it and no error is raised. -/
theorem c10_empty_outlets_skips_device (device : Element) (ty : String) (o : Element)
    (h1 : attrOf device "type" = some ty)
    (h2 : findChild device "outlets" = some o)
    (h3 : o.children = []) :
    processDevice device = ([], none) := by
  simp [processDevice, h1, h2, elemFalsy, h3]

/-- Claim C10, witness: a concrete device with a recognized field and an
empty `outlets` element. -/
theorem c10_witness :
    processDevice (deviceElem "1" "pdu"
      [fieldElem "RealPower-A" "123.4", Element.mk "outlets" [] []]) = ([], none) :=
  c10_empty_outlets_skips_device
    (deviceElem "1" "pdu" [fieldElem "RealPower-A" "123.4", Element.mk "outlets" [] []])
    "pdu" (Element.mk "outlets" [] []) rfl rfl rfl

end GeistPdu
